import Mathlib

/-!
# Verification of the music-streamer Express backend controllers

Shallow embedding of `src/express_backend/src/controllers/favorites.js`,
`src/express_backend/src/controllers/playlists.js` and
`src/express_backend/src/utils/schemaInit.js` (the schema-guard module that
both controllers `require`), together with the relevant parts of the
database schema (`UNIQUE` constraints on the junction tables and the
`updated_at` trigger on `playlists` from the repository's SQL schema file).

JavaScript request bodies are modelled as association lists of JSON-like
values; the Supabase data layer is modelled as explicit state (lists of
rows) with the uniqueness constraints of the DDL; handler control flow is
translated branch-by-branch from the source.
-/

/-- A JSON-ish JavaScript value as it appears in a request body or a stored
column.  `null` doubles as SQL NULL for stored columns. -/
inductive JVal where
  | null : JVal
  | bool : Bool → JVal
  | num : Int → JVal
  | str : String → JVal
deriving Repr, DecidableEq

/-- A request body: an object, i.e. a finite list of key/value pairs. -/
abbrev Body := List (String × JVal)

/-- Property access `body.k`: `none` models JavaScript `undefined`. -/
def jsGet (b : Body) (k : String) : Option JVal :=
  b.lookup k

/-- JavaScript truthiness of a value. -/
def JVal.truthy : JVal → Bool
  | .null => false
  | .bool b => b
  | .num n => n != 0
  | .str s => s != ""

/-- Truthiness of a possibly-undefined value. -/
def truthy? : Option JVal → Bool
  | none => false
  | some v => v.truthy

/-- JavaScript `x || y` where the right operand is a known value. -/
def jsOr (x : Option JVal) (y : JVal) : JVal :=
  match x with
  | some v => if v.truthy then v else y
  | none => y

/-- Extract the string payload of a value already validated to be a string. -/
def jsStr : Option JVal → String
  | some (.str s) => s
  | _ => ""

/-- `v === undefined || typeof v === 'string'` (optional string field). -/
def optString : Option JVal → Bool
  | none => true
  | some (.str _) => true
  | _ => false

/-- `v === undefined || typeof v === 'boolean'` (optional boolean field). -/
def optBool : Option JVal → Bool
  | none => true
  | some (.bool _) => true
  | _ => false

/-- One character of the controllers' UUID regular expression
`/^[0-9a-f]{8}-[0-9a-f]{4}-[0-9a-f]{4}-[0-9a-f]{4}-[0-9a-f]{12}$/i`. -/
def isHexDigit (c : Char) : Bool :=
  (c ≥ '0' && c ≤ '9') || (c ≥ 'a' && c ≤ 'f') || (c ≥ 'A' && c ≤ 'F')

/-- Walk the characters of a candidate UUID keeping the current position:
positions 8, 13, 18, 23 must be hyphens, all others hex digits, and the
total length must be 36. -/
def uuidShape : List Char → Nat → Bool
  | [], n => n == 36
  | c :: cs, n =>
    (if n == 8 || n == 13 || n == 18 || n == 23 then c == '-' else isHexDigit c)
      && uuidShape cs (n + 1)

/-- The controllers' `uuidRegex.test` on a string. -/
def isUuid (s : String) : Bool := uuidShape s.data 0

/-- An ASCII whitespace character (the common cases stripped by
JavaScript's `String.prototype.trim`). -/
def isWsChar (c : Char) : Bool :=
  c == ' ' || c == '\t' || c == '\n' || c == '\r'

/-- Drop leading whitespace characters. -/
def dropWs : List Char → List Char
  | [] => []
  | c :: cs => if isWsChar c then dropWs cs else c :: cs

/-- JavaScript `s.trim()`: strip whitespace from both ends. -/
def jsTrim (s : String) : String :=
  ⟨(dropWs (dropWs s.data).reverse).reverse⟩

/-- A row of the `tracks` table (columns used by the controllers; see the
repository's SQL schema: `id, title, artist_name, duration_seconds,
audius_track_id, audius_stream_url`). -/
structure TrackRow where
  id : String
  title : JVal
  artist_name : JVal
  duration_seconds : JVal
  audius_track_id : JVal
  audius_stream_url : JVal
deriving Repr, DecidableEq

/-- A row of the `playlists` table. -/
structure PlaylistRow where
  id : String
  owner_id : String
  name : String
  description : String
  is_public : Bool
  created_at : Nat
  updated_at : Nat
deriving Repr, DecidableEq

/-- A row of the `playlist_items` junction table (no `position` column;
ordering is by `added_at`). -/
structure ItemRow where
  id : String
  playlist_id : String
  track_id : String
  added_at : Nat
deriving Repr, DecidableEq

/-- A row of the `favorites` junction table (`user_id, track_id,
created_at`, with `UNIQUE (user_id, track_id)`). -/
structure FavoriteRow where
  user_id : String
  track_id : String
  created_at : Nat
deriving Repr, DecidableEq

/-- Which tables/columns exist in the remote database (what the schema
guard's probes can observe). -/
structure Schema where
  tracksTable : Bool
  playlistItemsTable : Bool
  favoritesTable : Bool
  artistNameColumn : Bool
deriving Repr, DecidableEq

/-- The data-layer state seen by one request: schema capabilities, table
contents, a logical clock for `now()` defaults, and counters for
database-generated primary keys. -/
structure DB where
  schema : Schema
  profiles : List String
  tracks : List TrackRow
  playlists : List PlaylistRow
  playlistItems : List ItemRow
  favorites : List FavoriteRow
  now : Nat
  nextTrackId : Nat
  nextPlaylistId : Nat
  nextItemId : Nat
deriving Repr, DecidableEq

/-- Database-generated `tracks.id` (`gen_random_uuid()` default). -/
def genTrackId (n : Nat) : String := "generated-track-" ++ toString n

/-- Database-generated `playlists.id`. -/
def genPlaylistId (n : Nat) : String := "generated-playlist-" ++ toString n

/-- Database-generated `playlist_items.id` (BIGSERIAL). -/
def genItemId (n : Nat) : String := "generated-item-" ++ toString n

/-- Result of `ensureTablesExist` plus the `console.warn` lines it emits. -/
structure SchemaCheck where
  success : Bool
  error : Option String
  warnings : List String
deriving Repr, DecidableEq

/-- The remediation hint returned whenever a required table is missing. -/
def schemaInitErrorMsg : String :=
  "Database schema not initialized. Contact administrator."

/-- The `console.warn` text for a missing table. -/
def missingTableWarning (t : String) : String :=
  t ++ " table does not exist. Please run database migrations."

/-- The `console.warn` text for the missing optional `artist_name` column. -/
def artistColumnWarning : String :=
  "artist_name column does not exist in tracks table. Please run ALTER TABLE tracks ADD COLUMN IF NOT EXISTS artist_name TEXT;"

/-- `ensureTablesExist` from `src/utils/schemaInit.js` (the module both
controllers `require`): probe `tracks`, `playlist_items` and `favorites`
for existence (a missing table surfaces as error code 42P01 and yields a
typed failure with a remediation hint), then probe the optional
`artist_name` column of `tracks` (a missing column, error 42703, only logs
a warning and the check still succeeds). -/
def ensureTablesExist (s : Schema) : SchemaCheck :=
  if !s.tracksTable then
    { success := false, error := some schemaInitErrorMsg,
      warnings := [missingTableWarning "tracks"] }
  else if !s.playlistItemsTable then
    { success := false, error := some schemaInitErrorMsg,
      warnings := [missingTableWarning "playlist_items"] }
  else if !s.favoritesTable then
    { success := false, error := some schemaInitErrorMsg,
      warnings := [missingTableWarning "favorites"] }
  else if !s.artistNameColumn then
    { success := true, error := none, warnings := [artistColumnWarning] }
  else
    { success := true, error := none, warnings := [] }

/-- The `trackData` object built by `FavoritesController.addFavorite` when
the referenced track does not exist yet (favorites.js lines 67–74):
only these six keys, with `||`-fallbacks exactly as in the source
(`artist` aliases `artist_name`, `duration` aliases `duration_seconds`). -/
def favTrackData (track_id : String) (b : Body) : List (String × JVal) :=
  [ ("id", .str track_id),
    ("title", jsOr (jsGet b "title") (.str "Untitled Track")),
    ("artist_name", jsOr (jsGet b "artist_name") (jsOr (jsGet b "artist") .null)),
    ("duration_seconds", jsOr (jsGet b "duration_seconds") (jsOr (jsGet b "duration") .null)),
    ("audius_track_id", jsOr (jsGet b "audius_track_id") .null),
    ("audius_stream_url", jsOr (jsGet b "audius_stream_url") .null) ]

/-- The `trackInsertData` object built by
`PlaylistsController.addTrackToPlaylist` (playlists.js lines 602–612):
title trimmed, `duration_seconds || null`, the two audius fields verbatim,
and `artist_name` only when truthy. -/
def plTrackData (b : Body) : List (String × JVal) :=
  let base : List (String × JVal) :=
    [ ("title", .str (jsTrim (jsStr (jsGet b "title")))),
      ("duration_seconds", jsOr (jsGet b "duration_seconds") .null),
      ("audius_track_id", (jsGet b "audius_track_id").getD .null),
      ("audius_stream_url", (jsGet b "audius_stream_url").getD .null) ]
  if truthy? (jsGet b "artist_name") then
    base ++ [("artist_name", (jsGet b "artist_name").getD .null)]
  else base

/-- INSERT of a field/value object into `tracks`: named columns receive the
given values, every other column its default (`NULL`; the primary key gets
the database-generated id when the object carries no `id`). -/
def rowOfData (mintedId : String) (data : List (String × JVal)) : TrackRow :=
  { id := match data.lookup "id" with
          | some (.str s) => s
          | _ => mintedId,
    title := (data.lookup "title").getD .null,
    artist_name := (data.lookup "artist_name").getD .null,
    duration_seconds := (data.lookup "duration_seconds").getD .null,
    audius_track_id := (data.lookup "audius_track_id").getD .null,
    audius_stream_url := (data.lookup "audius_stream_url").getD .null }

/-- The `tracks` columns of the repository schema: the allow-list of §4.3. -/
def allowedTrackFields : List String :=
  ["id", "title", "artist_name", "duration_seconds", "audius_track_id",
   "audius_stream_url"]

/-- The favorites-row predicate `user_id = ? AND track_id = ?`. -/
def favMatches (userId track_id : String) (f : FavoriteRow) : Bool :=
  f.user_id == userId && f.track_id == track_id

/-- The playlist-items predicate `playlist_id = ? AND track_id = ?`. -/
def itemMatches (playlist_id track_id : String) (it : ItemRow) : Bool :=
  it.playlist_id == playlist_id && it.track_id == track_id

/-- Number of favorites rows of one `(user_id, track_id)` pair. -/
def favCount (db : DB) (userId track_id : String) : Nat :=
  db.favorites.countP (favMatches userId track_id)

/-- Number of items of one playlist. -/
def itemCount (db : DB) (playlistId : String) : Nat :=
  db.playlistItems.countP (fun it => it.playlist_id == playlistId)

/-- Outcome of `FavoritesController.addFavorite`. -/
inductive FavOutcome where
  | serverError (error details : String)
  | badRequest (error : String)
  | ok (favorite : FavoriteRow) (message : String)
  | created (favorite : FavoriteRow) (message : String)
deriving Repr, DecidableEq

/-- HTTP status of a favorites outcome. -/
def FavOutcome.status : FavOutcome → Nat
  | .serverError .. => 500
  | .badRequest .. => 400
  | .ok .. => 200
  | .created .. => 201

/-- The INSERT into `favorites` together with its error handling
(favorites.js lines 111–146): the data layer raises the
uniqueness-violation signal 23505 exactly when a row with the same
`(user_id, track_id)` already exists (the table's UNIQUE constraint); in
that case the handler re-fetches the existing row and answers 200;
otherwise the row is inserted with `created_at = now()` and the handler
answers 201. -/
def favInsertStep (db : DB) (userId track_id : String) : FavOutcome × DB :=
  match db.favorites.find? (favMatches userId track_id) with
  | some existingF =>
      (.ok existingF "Track is already in favorites", db)
  | none =>
      let row : FavoriteRow :=
        { user_id := userId, track_id := track_id, created_at := db.now }
      (.created row "Track added to favorites successfully",
        { db with favorites := db.favorites ++ [row], now := db.now + 1 })

/-- `FavoritesController.addFavorite` (favorites.js lines 12–159):
guard the scoped client, validate `track_id` against the UUID regex, run
the schema guard, lazily create the track (allow-listed fields only),
short-circuit to 200 when the pair is already favorited, else insert. -/
def addFavorite (db : DB) (userId : String) (b : Body) (hasClient : Bool) :
    FavOutcome × DB :=
  if !hasClient then
    (.serverError "Authentication context not available"
      "User-scoped Supabase client is missing.", db)
  else
    match jsGet b "track_id" with
    | some (.str track_id) =>
      if !isUuid track_id then
        (.badRequest "Valid track_id (UUID) is required", db)
      else
        let check := ensureTablesExist db.schema
        if !check.success then
          (.serverError "Database schema error" (check.error.getD ""), db)
        else
          let db1 :=
            match db.tracks.find? (fun t => t.id == track_id) with
            | some _ => db
            | none =>
              { db with tracks :=
                  db.tracks ++ [rowOfData track_id (favTrackData track_id b)] }
          match db1.favorites.find? (favMatches userId track_id) with
          | some existingF =>
            (.ok existingF "Track is already in favorites", db1)
          | none => favInsertStep db1 userId track_id
    | _ => (.badRequest "Valid track_id (UUID) is required", db)

/-- Outcome of `PlaylistsController.addTrackToPlaylist`. -/
inductive ItemOutcome where
  | serverError (error details : String)
  | badRequest (error : String)
  | notFound (error : String)
  | forbidden (error : String)
  | conflict (error : String)
  | created (item : ItemRow) (message : String)
deriving Repr, DecidableEq

/-- HTTP status of a playlist-item outcome. -/
def ItemOutcome.status : ItemOutcome → Nat
  | .serverError .. => 500
  | .badRequest .. => 400
  | .notFound .. => 404
  | .forbidden .. => 403
  | .conflict .. => 409
  | .created .. => 201

/-- `!title || typeof title !== 'string' || title.trim().length === 0`. -/
def validTitle (b : Body) : Bool :=
  match jsGet b "title" with
  | some (.str s) => jsTrim s != ""
  | _ => false

/-- `!v || typeof v !== 'string'` for a required string field. -/
def validReqString (b : Body) (k : String) : Bool :=
  match jsGet b k with
  | some (.str s) => s != ""
  | _ => false

/-- `duration_seconds !== undefined && (typeof duration_seconds !== 'number'
|| duration_seconds < 0)` is the rejection condition; this is its negation. -/
def validOptDuration (b : Body) : Bool :=
  match jsGet b "duration_seconds" with
  | none => true
  | some (.num n) => decide (0 ≤ n)
  | some _ => false

/-- The INSERT into `playlist_items` together with its error handling
(playlists.js lines 630–661): the data layer raises 23505 exactly when a
row with the same `(playlist_id, track_id)` exists (the table's UNIQUE
constraint); the handler maps that to 409 Conflict; otherwise the row is
inserted with `added_at = now()` and the handler answers 201. -/
def itemInsertStep (db : DB) (playlist_id track_id : String) :
    ItemOutcome × DB :=
  if db.playlistItems.any (itemMatches playlist_id track_id) then
    (.conflict "Track already in playlist", db)
  else
    let row : ItemRow :=
      { id := genItemId db.nextItemId, playlist_id := playlist_id,
        track_id := track_id, added_at := db.now }
    (.created row "Track added to playlist successfully",
      { db with playlistItems := db.playlistItems ++ [row],
                now := db.now + 1, nextItemId := db.nextItemId + 1 })

/-- `PlaylistsController.addTrackToPlaylist` (playlists.js lines 507–674):
guard the scoped client, validate the body and the playlist id, run the
schema guard, fetch the playlist (404 when absent), check ownership (403
on mismatch), upsert the track by `audius_track_id`, insert the junction
row (409 on duplicate). -/
def addTrackToPlaylist (db : DB) (userId playlistId : String) (b : Body)
    (hasClient : Bool) : ItemOutcome × DB :=
  if !hasClient then
    (.serverError "Authentication context not available"
      "User-scoped Supabase client is missing.", db)
  else if !validTitle b then
    (.badRequest "Track title is required and must be a non-empty string", db)
  else if !validReqString b "audius_track_id" then
    (.badRequest "audius_track_id is required and must be a string", db)
  else if !validReqString b "audius_stream_url" then
    (.badRequest "audius_stream_url is required and must be a string", db)
  else if !validOptDuration b then
    (.badRequest "duration_seconds must be a non-negative number", db)
  else if !isUuid playlistId then
    (.badRequest "Invalid playlist ID format", db)
  else
    let check := ensureTablesExist db.schema
    if !check.success then
      (.serverError "Database schema error" (check.error.getD ""), db)
    else
      match db.playlists.find? (fun p => p.id == playlistId) with
      | none => (.notFound "Playlist not found", db)
      | some p =>
        if p.owner_id != userId then
          (.forbidden "Permission denied", db)
        else
          match db.tracks.find?
              (fun t => t.audius_track_id
                == .str (jsStr (jsGet b "audius_track_id"))) with
          | some t => itemInsertStep db playlistId t.id
          | none =>
            let newRow := rowOfData (genTrackId db.nextTrackId) (plTrackData b)
            let db1 :=
              { db with tracks := db.tracks ++ [newRow],
                        nextTrackId := db.nextTrackId + 1 }
            itemInsertStep db1 playlistId newRow.id

/-- Outcome of `PlaylistsController.updatePlaylist`. -/
inductive UpdateOutcome where
  | serverError (error details : String)
  | badRequest (error : String)
  | notFound (error : String)
  | forbidden (error : String)
  | ok (playlist : PlaylistRow) (message : String)
deriving Repr, DecidableEq

/-- HTTP status of an update outcome. -/
def UpdateOutcome.status : UpdateOutcome → Nat
  | .serverError .. => 500
  | .badRequest .. => 400
  | .notFound .. => 404
  | .forbidden .. => 403
  | .ok .. => 200

/-- Apply the `updateData` object (only the supplied fields) to a playlist
row, plus the database trigger `set_updated_at` of the repository schema,
which refreshes `updated_at` on every UPDATE of `playlists`. -/
def applyPatch (desc pub : Option JVal) (now : Nat) (p : PlaylistRow) :
    PlaylistRow :=
  let p1 := match desc with
            | some (.str s) => { p with description := s }
            | _ => p
  let p2 := match pub with
            | some (.bool v) => { p1 with is_public := v }
            | _ => p1
  { p2 with updated_at := now }

/-- `PlaylistsController.updatePlaylist` (playlists.js lines 398–498):
guard the scoped client, validate the playlist id, require at least one of
`description`/`is_public` with the right type, fetch the playlist (404),
check ownership (403), apply only the supplied fields. -/
def updatePlaylist (db : DB) (userId playlistId : String) (b : Body)
    (hasClient : Bool) : UpdateOutcome × DB :=
  if !hasClient then
    (.serverError "Authentication context not available"
      "User-scoped Supabase client is missing.", db)
  else if !isUuid playlistId then
    (.badRequest "Invalid playlist ID format", db)
  else
    let desc := jsGet b "description"
    let pub := jsGet b "is_public"
    if desc.isNone && pub.isNone then
      (.badRequest "At least one field (description or is_public) must be provided", db)
    else if !optString desc then
      (.badRequest "Description must be a string", db)
    else if !optBool pub then
      (.badRequest "is_public must be a boolean", db)
    else
      match db.playlists.find? (fun p => p.id == playlistId) with
      | none => (.notFound "Playlist not found", db)
      | some p =>
        if p.owner_id != userId then
          (.forbidden "Permission denied", db)
        else
          (.ok (applyPatch desc pub db.now p) "Playlist updated successfully",
            { db with playlists := (db.playlists.map
                (fun q => if q.id == playlistId then applyPatch desc pub db.now q else q)) })

/-- Outcome of `PlaylistsController.getPlaylistWithItems`. -/
inductive ReadOutcome where
  | serverError (error details : String)
  | badRequest (error : String)
  | notFound (error : String)
  | forbidden (error : String)
  | ok (playlist : PlaylistRow) (items : List (ItemRow × Option TrackRow))
deriving Repr, DecidableEq

/-- HTTP status of a read outcome. -/
def ReadOutcome.status : ReadOutcome → Nat
  | .serverError .. => 500
  | .badRequest .. => 400
  | .notFound .. => 404
  | .forbidden .. => 403
  | .ok .. => 200

/-- Insert one joined item into a list kept in `added_at`-descending order. -/
def insertDesc (x : ItemRow × Option TrackRow) :
    List (ItemRow × Option TrackRow) → List (ItemRow × Option TrackRow)
  | [] => [x]
  | y :: ys =>
    if y.1.added_at ≤ x.1.added_at then x :: y :: ys else y :: insertDesc x ys

/-- `ORDER BY added_at DESC` on the joined items. -/
def sortByAddedAtDesc :
    List (ItemRow × Option TrackRow) → List (ItemRow × Option TrackRow)
  | [] => []
  | x :: xs => insertDesc x (sortByAddedAtDesc xs)

/-- `PlaylistsController.getPlaylistWithItems` (playlists.js lines
296–390): guard the scoped client, validate the id, fetch the playlist
(404 when absent), allow the read when the playlist is public or owned by
the principal (403 otherwise), then return the items joined with their
tracks ordered by `added_at` descending. -/
def getPlaylistWithItems (db : DB) (userId playlistId : String)
    (hasClient : Bool) : ReadOutcome :=
  if !hasClient then
    .serverError "Authentication context not available"
      "User-scoped Supabase client is missing."
  else if !isUuid playlistId then
    .badRequest "Invalid playlist ID format"
  else
    match db.playlists.find? (fun p => p.id == playlistId) with
    | none => .notFound "Playlist not found"
    | some p =>
      if !p.is_public && p.owner_id != userId then
        .forbidden "Permission denied"
      else
        .ok p (sortByAddedAtDesc
          ((db.playlistItems.filter (fun it => it.playlist_id == playlistId)).map
            (fun it => (it, db.tracks.find? (fun t => t.id == it.track_id)))))

/-- Outcome of `PlaylistsController.createPlaylist`. -/
inductive CreateOutcome where
  | serverError (error details : String)
  | badRequest (error : String)
  | notFound (error : String)
  | created (playlist : PlaylistRow) (message : String)
deriving Repr, DecidableEq

/-- HTTP status of a create outcome. -/
def CreateOutcome.status : CreateOutcome → Nat
  | .serverError .. => 500
  | .badRequest .. => 400
  | .notFound .. => 404
  | .created .. => 201

/-- `PlaylistsController.createPlaylist` (playlists.js lines 137–242, the
user-scoped-client version): guard the scoped client, require `name` to be
a string with non-empty trim and length at most 100, type-check the
optional `description`/`is_public`, require an existing profile (404),
then insert the playlist owned by the principal. -/
def createPlaylist (db : DB) (userId : String) (b : Body) (hasClient : Bool) :
    CreateOutcome × DB :=
  if !hasClient then
    (.serverError "Authentication context not available"
      "User-scoped Supabase client is missing.", db)
  else
    match jsGet b "name" with
    | some (.str name) =>
      if jsTrim name == "" then
        (.badRequest "Playlist name is required and must be a non-empty string", db)
      else if name.length > 100 then
        (.badRequest "Playlist name must be 100 characters or less", db)
      else if !optString (jsGet b "description") then
        (.badRequest "Description must be a string", db)
      else if !optBool (jsGet b "is_public") then
        (.badRequest "is_public must be a boolean", db)
      else if !db.profiles.contains userId then
        (.notFound "User profile not found", db)
      else
        let row : PlaylistRow :=
          { id := genPlaylistId db.nextPlaylistId,
            owner_id := userId,
            name := jsTrim name,
            description := (match jsGet b "description" with
                           | some (.str d) => jsTrim d
                           | _ => ""),
            is_public := (match jsGet b "is_public" with
                         | some (.bool v) => v
                         | _ => true),
            created_at := db.now, updated_at := db.now }
        (.created row "Playlist created successfully",
          { db with playlists := db.playlists ++ [row],
                    nextPlaylistId := db.nextPlaylistId + 1,
                    now := db.now + 1 })
    | _ =>
      (.badRequest "Playlist name is required and must be a non-empty string", db)

/-- The `tracks.id` the upsert of `addTrackToPlaylist` resolves an
external `audius_track_id` to: the id of the existing row when one
matches, otherwise the database-generated id of the row about to be
inserted. -/
def resolvedTrackId (db : DB) (atid : String) : String :=
  match db.tracks.find? (fun t => t.audius_track_id == .str atid) with
  | some t => t.id
  | none => genTrackId db.nextTrackId

/-- The body keys `FavoritesController.addFavorite` destructures from
`req.body` (favorites.js lines 17–28); every other key is never read. -/
def favReadKeys : List String :=
  ["track_id", "title", "artist", "artist_name", "duration",
   "duration_seconds", "artwork", "artwork_url", "audius_track_id",
   "audius_stream_url"]

/-- The body keys `PlaylistsController.addTrackToPlaylist` destructures
from `req.body` (playlists.js line 513); every other key is never read. -/
def plReadKeys : List String :=
  ["title", "duration_seconds", "audius_track_id", "audius_stream_url",
   "artist_name"]

/-! ## Concrete fixtures (used by witnesses and counterexamples) -/

/-- A string accepted by the controllers' UUID regex. -/
def uuidW : String := "aaaaaaaa-aaaa-aaaa-aaaa-aaaaaaaaaaaa"

/-- A second valid UUID, distinct from `uuidW`. -/
def uuidW2 : String := "bbbbbbbb-bbbb-bbbb-bbbb-bbbbbbbbbbbb"

/-- A third valid UUID. -/
def uuidW3 : String := "cccccccc-cccc-cccc-cccc-cccccccccccc"

/-- A fully provisioned schema. -/
def schemaW : Schema :=
  { tracksTable := true, playlistItemsTable := true,
    favoritesTable := true, artistNameColumn := true }

/-- An empty database with two registered profiles. -/
def dbW : DB :=
  { schema := schemaW, profiles := ["user-a", "user-b"],
    tracks := [], playlists := [], playlistItems := [], favorites := [],
    now := 0, nextTrackId := 0, nextPlaylistId := 0, nextItemId := 0 }

/-- A public playlist owned by `user-a`. -/
def playlistW : PlaylistRow :=
  { id := uuidW2, owner_id := "user-a", name := "Road Trip",
    description := "", is_public := true, created_at := 0, updated_at := 0 }

/-- The same playlist made private. -/
def privatePlaylistW : PlaylistRow := { playlistW with is_public := false }

/-- `dbW` with the public playlist present. -/
def dbPW : DB := { dbW with playlists := [playlistW] }

/-- `dbW` with the private playlist present, clock advanced past the
playlist's `updated_at`. -/
def dbPrivW : DB := { dbW with playlists := [privatePlaylistW], now := 5 }

/-- A valid add-track body for `POST /playlists/:id/items`. -/
def plBodyW : Body :=
  [("title", .str "Song A"), ("audius_track_id", .str "ext1"),
   ("audius_stream_url", .str "http://x")]

/-- A valid favorites body carrying only the track id. -/
def favBodyW : Body := [("track_id", .str uuidW)]

/-! ## Helper lemmas -/

theorem ensureTablesExist_success (s : Schema) :
    (ensureTablesExist s).success
      = (s.tracksTable && s.playlistItemsTable && s.favoritesTable) := by
  rcases s with ⟨t, i, f, a⟩
  cases t <;> cases i <;> cases f <;> cases a <;> rfl

theorem favMatches_mk (u t : String) (c : Nat) :
    favMatches u t { user_id := u, track_id := t, created_at := c } = true := by
  simp [favMatches]

theorem find?_none_of_countP_zero {α : Type} (p : α → Bool) (l : List α)
    (h : l.countP p = 0) : l.find? p = none := by
  rw [List.find?_eq_none]
  exact fun x hx => List.countP_eq_zero.mp h x hx

/-- The track row lazily created by the favorites path keeps the caller's
`track_id` as its primary key. -/
theorem rowOfData_fav_id (track_id : String) (b : Body) :
    (rowOfData track_id (favTrackData track_id b)).id = track_id := by
  simp [rowOfData, favTrackData, List.lookup]

/-- `addFavorite` on a valid body, provisioned schema and a not-yet
favorited pair: 201, the pair appended to `favorites`, the track created
when absent. -/
theorem addFavorite_fresh (db : DB) (userId track_id : String) (b : Body)
    (hb : jsGet b "track_id" = some (.str track_id))
    (hu : isUuid track_id = true)
    (hs : (ensureTablesExist db.schema).success = true)
    (h0 : db.favorites.find? (favMatches userId track_id) = none) :
    addFavorite db userId b true =
      (FavOutcome.created ⟨userId, track_id, db.now⟩
         "Track added to favorites successfully",
       { db with
           tracks := (match db.tracks.find? (fun t => t.id == track_id) with
                     | some _ => db.tracks
                     | none => db.tracks
                         ++ [rowOfData track_id (favTrackData track_id b)]),
           favorites := db.favorites ++ [⟨userId, track_id, db.now⟩],
           now := db.now + 1 }) := by
  unfold addFavorite
  rw [hb]
  simp only [hu, hs, Bool.not_true, Bool.false_eq_true, if_false, ite_false]
  cases htr : db.tracks.find? (fun t => t.id == track_id) with
  | some t => simp [htr, h0, favInsertStep]
  | none => simp [htr, h0, favInsertStep]

/-- `addFavorite` on a valid body, provisioned schema and an already
favorited pair: 200 with the pre-existing row, favorites untouched. -/
theorem addFavorite_dup (db : DB) (userId track_id : String) (b : Body)
    (f : FavoriteRow)
    (hb : jsGet b "track_id" = some (.str track_id))
    (hu : isUuid track_id = true)
    (hs : (ensureTablesExist db.schema).success = true)
    (hf : db.favorites.find? (favMatches userId track_id) = some f) :
    addFavorite db userId b true =
      (FavOutcome.ok f "Track is already in favorites",
       { db with
           tracks := (match db.tracks.find? (fun t => t.id == track_id) with
                     | some _ => db.tracks
                     | none => db.tracks
                         ++ [rowOfData track_id (favTrackData track_id b)]) }) := by
  unfold addFavorite
  rw [hb]
  simp only [hu, hs, Bool.not_true, Bool.false_eq_true, if_false, ite_false]
  cases htr : db.tracks.find? (fun t => t.id == track_id) with
  | some t => simp [htr, hf]
  | none => simp [htr, hf]

/-! ## C1 — favorites add is idempotent -/

/-- C1: For every principal and track_id (valid body, provisioned schema,
pair not yet favorited), the first POST /favorites responds 201 with a new
`(user_id, track_id)` row, a later POST by the same principal with the
same track_id responds 200 with that pre-existing row, the state is
unchanged by the second call, and exactly one favorites entry exists for
the pair afterwards. -/
theorem C1_addFavorite_idempotent
    (db : DB) (userId track_id : String) (b b' : Body)
    (hb : jsGet b "track_id" = some (.str track_id))
    (hb' : jsGet b' "track_id" = some (.str track_id))
    (hu : isUuid track_id = true)
    (hs : (ensureTablesExist db.schema).success = true)
    (h0 : favCount db userId track_id = 0) :
    ∃ row : FavoriteRow, row.user_id = userId ∧ row.track_id = track_id ∧
      (addFavorite db userId b true).1
        = FavOutcome.created row "Track added to favorites successfully" ∧
      ((addFavorite db userId b true).1).status = 201 ∧
      (addFavorite (addFavorite db userId b true).2 userId b' true).1
        = FavOutcome.ok row "Track is already in favorites" ∧
      ((addFavorite (addFavorite db userId b true).2 userId b' true).1).status
        = 200 ∧
      (addFavorite (addFavorite db userId b true).2 userId b' true).2
        = (addFavorite db userId b true).2 ∧
      favCount (addFavorite (addFavorite db userId b true).2 userId b' true).2
        userId track_id = 1 := by
  have h0' : db.favorites.find? (favMatches userId track_id) = none :=
    find?_none_of_countP_zero _ _ h0
  have e1 := addFavorite_fresh db userId track_id b hb hu hs h0'
  set row : FavoriteRow := ⟨userId, track_id, db.now⟩ with hrowdef
  refine ⟨row, rfl, rfl, ?_⟩
  rw [e1]
  -- the state after the first call
  set db2 : DB :=
    { db with
        tracks := (match db.tracks.find? (fun t => t.id == track_id) with
                  | some _ => db.tracks
                  | none => db.tracks
                      ++ [rowOfData track_id (favTrackData track_id b)]),
        favorites := db.favorites ++ [row],
        now := db.now + 1 } with hdb2
  -- the second call finds the favorite row appended by the first call
  have hfav2 : db2.favorites.find? (favMatches userId track_id) = some row := by
    rw [hdb2]
    simp [List.find?_append, h0', List.find?, favMatches]
  have e2 := addFavorite_dup db2 userId track_id b' row hb' hu
    (by rw [hdb2]; exact hs) hfav2
  -- the second call also finds the track, so no track row is appended
  have htr2 : ∃ tr, db2.tracks.find? (fun t => t.id == track_id) = some tr := by
    rw [hdb2]
    cases htr : db.tracks.find? (fun t => t.id == track_id) with
    | some t =>
      exact ⟨t, by simpa using htr⟩
    | none =>
      refine ⟨rowOfData track_id (favTrackData track_id b), ?_⟩
      simp [List.find?_append, htr, List.find?, rowOfData_fav_id]
  obtain ⟨tr, htr2⟩ := htr2
  rw [htr2] at e2
  rw [e2]
  refine ⟨rfl, rfl, rfl, rfl, rfl, ?_⟩
  show favCount db2 userId track_id = 1
  rw [hdb2]
  simp only [favCount] at h0 ⊢
  simp [List.countP_append, h0, List.countP_cons, favMatches]

/-- Witness for C1: concrete database, principal and body. -/
theorem C1_addFavorite_idempotent_witness :
    ∃ row : FavoriteRow, row.user_id = "user-a" ∧ row.track_id = uuidW ∧
      (addFavorite dbW "user-a" favBodyW true).1
        = FavOutcome.created row "Track added to favorites successfully" ∧
      ((addFavorite dbW "user-a" favBodyW true).1).status = 201 ∧
      (addFavorite (addFavorite dbW "user-a" favBodyW true).2
          "user-a" favBodyW true).1
        = FavOutcome.ok row "Track is already in favorites" ∧
      ((addFavorite (addFavorite dbW "user-a" favBodyW true).2
          "user-a" favBodyW true).1).status = 200 ∧
      (addFavorite (addFavorite dbW "user-a" favBodyW true).2
          "user-a" favBodyW true).2
        = (addFavorite dbW "user-a" favBodyW true).2 ∧
      favCount (addFavorite (addFavorite dbW "user-a" favBodyW true).2
          "user-a" favBodyW true).2 "user-a" uuidW = 1 :=
  C1_addFavorite_idempotent dbW "user-a" uuidW favBodyW favBodyW
    rfl rfl (by decide) rfl rfl

/-! ## C2 — playlist-item add is not idempotent -/

/-- The track row created by the playlist path gets the database-generated
primary key (the insert object carries no `id`). -/
theorem rowOfData_pl_id (m : String) (b : Body) :
    (rowOfData m (plTrackData b)).id = m := by
  unfold rowOfData plTrackData
  cases truthy? (jsGet b "artist_name") <;> simp [List.lookup]

/-- The track row created by the playlist path stores the caller's
`audius_track_id` verbatim. -/
theorem rowOfData_pl_audius (m : String) (b : Body) :
    (rowOfData m (plTrackData b)).audius_track_id
      = (jsGet b "audius_track_id").getD .null := by
  unfold rowOfData plTrackData
  cases truthy? (jsGet b "artist_name") <;> simp [List.lookup]

/-- `addTrackToPlaylist` past all validation, schema and ownership gates:
what remains is the track upsert keyed by `audius_track_id` followed by
the junction insert. -/
theorem addTrackToPlaylist_run (db : DB) (userId playlistId : String)
    (b : Body) (p : PlaylistRow)
    (h1 : validTitle b = true)
    (h2 : validReqString b "audius_track_id" = true)
    (h3 : validReqString b "audius_stream_url" = true)
    (h4 : validOptDuration b = true)
    (h5 : isUuid playlistId = true)
    (hs : (ensureTablesExist db.schema).success = true)
    (hp : db.playlists.find? (fun q => q.id == playlistId) = some p)
    (ho : p.owner_id = userId) :
    addTrackToPlaylist db userId playlistId b true =
      (match db.tracks.find?
          (fun t => t.audius_track_id == .str (jsStr (jsGet b "audius_track_id"))) with
       | some t => itemInsertStep db playlistId t.id
       | none =>
         itemInsertStep
           { db with
              tracks := (db.tracks
                ++ [rowOfData (genTrackId db.nextTrackId) (plTrackData b)]),
              nextTrackId := db.nextTrackId + 1 }
           playlistId (rowOfData (genTrackId db.nextTrackId) (plTrackData b)).id) := by
  unfold addTrackToPlaylist
  simp [h1, h2, h3, h4, h5, hs, hp, ho]

/-- C2: With a playlist owned by the principal and an external track id
whose resolved track is not yet in the playlist, the first
POST /playlists/:id/items responds 201 and appends exactly one junction
row, and a second POST with the same external track id responds 409
Conflict, changes nothing, and the playlist's item count has increased by
exactly 1 across both calls. -/
theorem C2_addTrackToPlaylist_conflict
    (db : DB) (userId playlistId atid : String) (b b' : Body) (p : PlaylistRow)
    (hb : jsGet b "audius_track_id" = some (.str atid))
    (hb' : jsGet b' "audius_track_id" = some (.str atid))
    (h1 : validTitle b = true) (h1' : validTitle b' = true)
    (h3 : validReqString b "audius_stream_url" = true)
    (h3' : validReqString b' "audius_stream_url" = true)
    (h4 : validOptDuration b = true) (h4' : validOptDuration b' = true)
    (h5 : isUuid playlistId = true)
    (hs : (ensureTablesExist db.schema).success = true)
    (hp : db.playlists.find? (fun q => q.id == playlistId) = some p)
    (ho : p.owner_id = userId)
    (hne : atid ≠ "")
    (hni : db.playlistItems.any
        (itemMatches playlistId (resolvedTrackId db atid)) = false) :
    ∃ item : ItemRow, item.playlist_id = playlistId ∧
      (addTrackToPlaylist db userId playlistId b true).1
        = ItemOutcome.created item "Track added to playlist successfully" ∧
      ((addTrackToPlaylist db userId playlistId b true).1).status = 201 ∧
      (addTrackToPlaylist db userId playlistId b true).2.playlistItems
        = db.playlistItems ++ [item] ∧
      itemCount (addTrackToPlaylist db userId playlistId b true).2 playlistId
        = itemCount db playlistId + 1 ∧
      (addTrackToPlaylist (addTrackToPlaylist db userId playlistId b true).2
          userId playlistId b' true).1
        = ItemOutcome.conflict "Track already in playlist" ∧
      ((addTrackToPlaylist (addTrackToPlaylist db userId playlistId b true).2
          userId playlistId b' true).1).status = 409 ∧
      (addTrackToPlaylist (addTrackToPlaylist db userId playlistId b true).2
          userId playlistId b' true).2
        = (addTrackToPlaylist db userId playlistId b true).2 ∧
      itemCount (addTrackToPlaylist
          (addTrackToPlaylist db userId playlistId b true).2
          userId playlistId b' true).2 playlistId
        = itemCount db playlistId + 1 := by
  have h2 : validReqString b "audius_track_id" = true := by
    simp [validReqString, hb, hne]
  have h2' : validReqString b' "audius_track_id" = true := by
    simp [validReqString, hb', hne]
  have hstr : jsStr (jsGet b "audius_track_id") = atid := by rw [hb]; rfl
  have hstr' : jsStr (jsGet b' "audius_track_id") = atid := by rw [hb']; rfl
  have e1 := addTrackToPlaylist_run db userId playlistId b p
    h1 h2 h3 h4 h5 hs hp ho
  rw [hstr] at e1
  unfold resolvedTrackId at hni
  cases htr : db.tracks.find? (fun t => t.audius_track_id == JVal.str atid) with
  | some t =>
    rw [htr] at e1 hni
    simp only [itemInsertStep] at e1
    rw [hni] at e1
    simp only [Bool.false_eq_true, if_false] at e1
    refine ⟨⟨genItemId db.nextItemId, playlistId, t.id, db.now⟩, rfl, ?_⟩
    rw [e1]
    set db2 : DB :=
      { db with
        playlistItems := (db.playlistItems
          ++ [⟨genItemId db.nextItemId, playlistId, t.id, db.now⟩]),
        now := db.now + 1, nextItemId := db.nextItemId + 1 } with hdb2
    have e2 := addTrackToPlaylist_run db2 userId playlistId b' p
      h1' h2' h3' h4' h5 (by rw [hdb2]; exact hs) (by rw [hdb2]; exact hp) ho
    rw [hstr'] at e2
    have htr2 : db2.tracks.find?
        (fun t => t.audius_track_id == JVal.str atid) = some t := by
      rw [hdb2]; exact htr
    rw [htr2] at e2
    have hdup : db2.playlistItems.any (itemMatches playlistId t.id) = true := by
      rw [hdb2]
      simp [List.any_append, itemMatches]
    simp only [itemInsertStep] at e2
    rw [hdup] at e2
    simp only [if_true] at e2
    rw [e2]
    have hcount : itemCount db2 playlistId = itemCount db playlistId + 1 := by
      rw [hdb2]
      simp [itemCount, List.countP_append, List.countP_cons]
    refine ⟨rfl, rfl, ?_, hcount, rfl, rfl, rfl, hcount⟩
    show db2.playlistItems = db.playlistItems ++ _
    rw [hdb2]
  | none =>
    rw [htr] at e1 hni
    set newRow : TrackRow := rowOfData (genTrackId db.nextTrackId) (plTrackData b)
      with hnewRow
    have hnid : newRow.id = genTrackId db.nextTrackId := rowOfData_pl_id _ _
    simp only [itemInsertStep] at e1
    simp only [hnid] at e1
    rw [hni] at e1
    simp only [Bool.false_eq_true, if_false] at e1
    refine ⟨⟨genItemId db.nextItemId, playlistId, genTrackId db.nextTrackId,
      db.now⟩, rfl, ?_⟩
    rw [e1]
    set db2 : DB :=
      { db with
        tracks := (db.tracks ++ [newRow]),
        nextTrackId := db.nextTrackId + 1,
        playlistItems := (db.playlistItems
          ++ [⟨genItemId db.nextItemId, playlistId,
                genTrackId db.nextTrackId, db.now⟩]),
        now := db.now + 1, nextItemId := db.nextItemId + 1 } with hdb2
    have e2 := addTrackToPlaylist_run db2 userId playlistId b' p
      h1' h2' h3' h4' h5 (by rw [hdb2]; exact hs) (by rw [hdb2]; exact hp) ho
    rw [hstr'] at e2
    have htr2 : db2.tracks.find?
        (fun t => t.audius_track_id == JVal.str atid) = some newRow := by
      rw [hdb2]
      simp only [List.find?_append, htr, Option.none_or]
      simp [List.find?, rowOfData_pl_audius, hnewRow, hb]
    rw [htr2] at e2
    have hdup : db2.playlistItems.any
        (itemMatches playlistId newRow.id) = true := by
      rw [hdb2, hnid]
      simp [List.any_append, itemMatches]
    simp only [itemInsertStep] at e2
    rw [hdup] at e2
    simp only [if_true] at e2
    rw [e2]
    have hcount : itemCount db2 playlistId = itemCount db playlistId + 1 := by
      rw [hdb2]
      simp [itemCount, List.countP_append, List.countP_cons]
    refine ⟨rfl, rfl, ?_, hcount, rfl, rfl, rfl, hcount⟩
    show db2.playlistItems = db.playlistItems ++ _
    rw [hdb2]

/-- Witness for C2: concrete owned playlist and add-track body. -/
theorem C2_addTrackToPlaylist_conflict_witness :
    ∃ item : ItemRow, item.playlist_id = uuidW2 ∧
      (addTrackToPlaylist dbPW "user-a" uuidW2 plBodyW true).1
        = ItemOutcome.created item "Track added to playlist successfully" ∧
      ((addTrackToPlaylist dbPW "user-a" uuidW2 plBodyW true).1).status = 201 ∧
      (addTrackToPlaylist dbPW "user-a" uuidW2 plBodyW true).2.playlistItems
        = dbPW.playlistItems ++ [item] ∧
      itemCount (addTrackToPlaylist dbPW "user-a" uuidW2 plBodyW true).2 uuidW2
        = itemCount dbPW uuidW2 + 1 ∧
      (addTrackToPlaylist (addTrackToPlaylist dbPW "user-a" uuidW2 plBodyW true).2
          "user-a" uuidW2 plBodyW true).1
        = ItemOutcome.conflict "Track already in playlist" ∧
      ((addTrackToPlaylist (addTrackToPlaylist dbPW "user-a" uuidW2 plBodyW true).2
          "user-a" uuidW2 plBodyW true).1).status = 409 ∧
      (addTrackToPlaylist (addTrackToPlaylist dbPW "user-a" uuidW2 plBodyW true).2
          "user-a" uuidW2 plBodyW true).2
        = (addTrackToPlaylist dbPW "user-a" uuidW2 plBodyW true).2 ∧
      itemCount (addTrackToPlaylist
          (addTrackToPlaylist dbPW "user-a" uuidW2 plBodyW true).2
          "user-a" uuidW2 plBodyW true).2 uuidW2
        = itemCount dbPW uuidW2 + 1 :=
  C2_addTrackToPlaylist_conflict dbPW "user-a" uuidW2 "ext1" plBodyW plBodyW
    playlistW rfl rfl (by decide) (by decide) rfl rfl rfl rfl (by decide) rfl
    rfl rfl (by decide) rfl

/-! ## C3 — duplicate-insert races resolve to the duplicate policy -/

/-- C3: When the junction-store insert hits the data layer's
uniqueness-violation signal (code 23505, i.e. the pair is already present
at insert time — the duplicate race), the favorites handler re-fetches the
existing row and answers 200, the playlist-items handler answers 409;
neither mutates anything nor surfaces a 500. -/
theorem C3_unique_violation_resolved
    (db : DB) (userId track_id playlist_id ptrack : String)
    (hfav : db.favorites.any (favMatches userId track_id) = true)
    (hitem : db.playlistItems.any (itemMatches playlist_id ptrack) = true) :
    (∃ row : FavoriteRow, favMatches userId track_id row = true ∧
      (favInsertStep db userId track_id).1
        = FavOutcome.ok row "Track is already in favorites") ∧
    ((favInsertStep db userId track_id).1).status = 200 ∧
    ((favInsertStep db userId track_id).1).status ≠ 500 ∧
    (favInsertStep db userId track_id).2 = db ∧
    (itemInsertStep db playlist_id ptrack).1
      = ItemOutcome.conflict "Track already in playlist" ∧
    ((itemInsertStep db playlist_id ptrack).1).status = 409 ∧
    ((itemInsertStep db playlist_id ptrack).1).status ≠ 500 ∧
    (itemInsertStep db playlist_id ptrack).2 = db := by
  have hex : ∃ f ∈ db.favorites, favMatches userId track_id f = true :=
    List.any_eq_true.mp hfav
  have hsome : (db.favorites.find? (favMatches userId track_id)).isSome := by
    rw [List.find?_isSome]
    exact hex
  obtain ⟨f, hf⟩ := Option.isSome_iff_exists.mp hsome
  have hfm : favMatches userId track_id f = true := List.find?_some hf
  refine ⟨⟨f, hfm, ?_⟩, ?_, ?_, ?_, ?_, ?_, ?_, ?_⟩ <;>
    simp [favInsertStep, itemInsertStep, hf, hitem, FavOutcome.status,
      ItemOutcome.status]

/-- Witness for C3: a database already holding the favorite pair and the
playlist item that a racing duplicate insert would collide with. -/
theorem C3_unique_violation_resolved_witness :
    (∃ row : FavoriteRow, favMatches "user-a" uuidW row = true ∧
      (favInsertStep
          { dbW with favorites := [⟨"user-a", uuidW, 0⟩],
                     playlistItems := [⟨"generated-item-0", uuidW2, uuidW, 0⟩] }
          "user-a" uuidW).1
        = FavOutcome.ok row "Track is already in favorites") ∧
    ((favInsertStep
        { dbW with favorites := [⟨"user-a", uuidW, 0⟩],
                   playlistItems := [⟨"generated-item-0", uuidW2, uuidW, 0⟩] }
        "user-a" uuidW).1).status = 200 ∧
    ((favInsertStep
        { dbW with favorites := [⟨"user-a", uuidW, 0⟩],
                   playlistItems := [⟨"generated-item-0", uuidW2, uuidW, 0⟩] }
        "user-a" uuidW).1).status ≠ 500 ∧
    (favInsertStep
        { dbW with favorites := [⟨"user-a", uuidW, 0⟩],
                   playlistItems := [⟨"generated-item-0", uuidW2, uuidW, 0⟩] }
        "user-a" uuidW).2
      = { dbW with favorites := [⟨"user-a", uuidW, 0⟩],
                   playlistItems := [⟨"generated-item-0", uuidW2, uuidW, 0⟩] } ∧
    (itemInsertStep
        { dbW with favorites := [⟨"user-a", uuidW, 0⟩],
                   playlistItems := [⟨"generated-item-0", uuidW2, uuidW, 0⟩] }
        uuidW2 uuidW).1
      = ItemOutcome.conflict "Track already in playlist" ∧
    ((itemInsertStep
        { dbW with favorites := [⟨"user-a", uuidW, 0⟩],
                   playlistItems := [⟨"generated-item-0", uuidW2, uuidW, 0⟩] }
        uuidW2 uuidW).1).status = 409 ∧
    ((itemInsertStep
        { dbW with favorites := [⟨"user-a", uuidW, 0⟩],
                   playlistItems := [⟨"generated-item-0", uuidW2, uuidW, 0⟩] }
        uuidW2 uuidW).1).status ≠ 500 ∧
    (itemInsertStep
        { dbW with favorites := [⟨"user-a", uuidW, 0⟩],
                   playlistItems := [⟨"generated-item-0", uuidW2, uuidW, 0⟩] }
        uuidW2 uuidW).2
      = { dbW with favorites := [⟨"user-a", uuidW, 0⟩],
                   playlistItems := [⟨"generated-item-0", uuidW2, uuidW, 0⟩] } :=
  C3_unique_violation_resolved
    { dbW with favorites := [⟨"user-a", uuidW, 0⟩],
               playlistItems := [⟨"generated-item-0", uuidW2, uuidW, 0⟩] }
    "user-a" uuidW uuidW2 uuidW (by decide) (by decide)

/-! ## C4 — ownership precedes every mutation -/

/-- `updatePlaylist` never writes when the fetched playlist is not owned
by the principal (every pre-ownership branch and the 403 branch leave the
state unchanged). -/
theorem updatePlaylist_noWrite_of_notOwner
    (db : DB) (userId playlistId : String) (b : Body) (hc : Bool)
    (p : PlaylistRow)
    (hp : db.playlists.find? (fun q => q.id == playlistId) = some p)
    (hneq : p.owner_id ≠ userId) :
    (updatePlaylist db userId playlistId b hc).2 = db := by
  unfold updatePlaylist
  repeat' split
  all_goals try rfl
  all_goals simp_all
  all_goals repeat' split
  all_goals rfl

/-- `addTrackToPlaylist` never writes when the fetched playlist is not
owned by the principal. -/
theorem addTrackToPlaylist_noWrite_of_notOwner
    (db : DB) (userId playlistId : String) (b : Body) (hc : Bool)
    (p : PlaylistRow)
    (hp : db.playlists.find? (fun q => q.id == playlistId) = some p)
    (hneq : p.owner_id ≠ userId) :
    (addTrackToPlaylist db userId playlistId b hc).2 = db := by
  unfold addTrackToPlaylist
  repeat' split
  all_goals try rfl
  all_goals simp_all
  all_goals repeat' split
  all_goals rfl

/-- C4: For every principal and every mutating playlist operation
(PATCH /playlists/:id and POST /playlists/:id/items), when the fetched
playlist's `owner_id` differs from the principal's id, no write happens at
all, and — once the request passes its input validation — the operation
fails with 403 Permission denied. -/
theorem C4_ownership_checked_before_mutation
    (db : DB) (userId playlistId : String) (b : Body) (p : PlaylistRow)
    (hp : db.playlists.find? (fun q => q.id == playlistId) = some p)
    (hneq : p.owner_id ≠ userId) :
    (updatePlaylist db userId playlistId b true).2 = db ∧
    (isUuid playlistId = true →
      ((jsGet b "description").isNone && (jsGet b "is_public").isNone) = false →
      optString (jsGet b "description") = true →
      optBool (jsGet b "is_public") = true →
      updatePlaylist db userId playlistId b true
        = (.forbidden "Permission denied", db) ∧
      ((updatePlaylist db userId playlistId b true).1).status = 403) ∧
    (addTrackToPlaylist db userId playlistId b true).2 = db ∧
    (validTitle b = true → validReqString b "audius_track_id" = true →
      validReqString b "audius_stream_url" = true →
      validOptDuration b = true → isUuid playlistId = true →
      (ensureTablesExist db.schema).success = true →
      addTrackToPlaylist db userId playlistId b true
        = (.forbidden "Permission denied", db) ∧
      ((addTrackToPlaylist db userId playlistId b true).1).status = 403) := by
  have hbne : (p.owner_id != userId) = true := by
    simp [bne_iff_ne, hneq]
  refine ⟨updatePlaylist_noWrite_of_notOwner db userId playlistId b true p hp hneq,
    ?_, addTrackToPlaylist_noWrite_of_notOwner db userId playlistId b true p hp hneq,
    ?_⟩
  · intro h5 hone hd hpb
    have : updatePlaylist db userId playlistId b true
        = (.forbidden "Permission denied", db) := by
      unfold updatePlaylist
      simp [h5, hone, hd, hpb, hp, hbne]
    exact ⟨this, by rw [this]; rfl⟩
  · intro h1 h2 h3 h4 h5 hs
    have : addTrackToPlaylist db userId playlistId b true
        = (.forbidden "Permission denied", db) := by
      unfold addTrackToPlaylist
      simp [h1, h2, h3, h4, h5, hs, hp, hbne]
    exact ⟨this, by rw [this]; rfl⟩

/-- Witness for C4: `user-b` attempts to patch and extend `user-a`'s
playlist. -/
theorem C4_ownership_checked_before_mutation_witness :
    (updatePlaylist dbPW "user-b" uuidW2 [("description", JVal.str "x")]
        true).2 = dbPW ∧
    (updatePlaylist dbPW "user-b" uuidW2 [("description", JVal.str "x")] true
      = (.forbidden "Permission denied", dbPW) ∧
     ((updatePlaylist dbPW "user-b" uuidW2 [("description", JVal.str "x")]
        true).1).status = 403) ∧
    (addTrackToPlaylist dbPW "user-b" uuidW2 plBodyW true).2 = dbPW ∧
    (addTrackToPlaylist dbPW "user-b" uuidW2 plBodyW true
      = (.forbidden "Permission denied", dbPW) ∧
     ((addTrackToPlaylist dbPW "user-b" uuidW2 plBodyW true).1).status
        = 403) := by
  have h := C4_ownership_checked_before_mutation dbPW "user-b" uuidW2
    plBodyW playlistW rfl (by decide)
  have h' := C4_ownership_checked_before_mutation dbPW "user-b" uuidW2
    [("description", JVal.str "x")] playlistW rfl (by decide)
  exact ⟨h'.1, h'.2.1 (by decide) rfl rfl rfl,
    h.2.2.1, h.2.2.2 (by decide) (by decide) (by decide) rfl (by decide) rfl⟩

/-! ## C5 — read access for a single playlist with items -/

/-- C5: For a private playlist owned by A, a distinct principal B's GET
fails 403 while A's read succeeds; a public playlist is readable by any
authenticated principal; a nonexistent playlist id yields 404. -/
theorem C5_playlist_read_access
    (db : DB) (playlistId : String) (h5 : isUuid playlistId = true) :
    (∀ (P : PlaylistRow) (a bPrincipal : String),
      db.playlists.find? (fun q => q.id == playlistId) = some P →
      P.owner_id = a → P.is_public = false → bPrincipal ≠ a →
      getPlaylistWithItems db bPrincipal playlistId true
        = .forbidden "Permission denied" ∧
      (getPlaylistWithItems db bPrincipal playlistId true).status = 403) ∧
    (∀ (P : PlaylistRow) (a : String),
      db.playlists.find? (fun q => q.id == playlistId) = some P →
      P.owner_id = a →
      ∃ items, getPlaylistWithItems db a playlistId true = .ok P items ∧
        (getPlaylistWithItems db a playlistId true).status = 200) ∧
    (∀ (P : PlaylistRow) (u : String),
      db.playlists.find? (fun q => q.id == playlistId) = some P →
      P.is_public = true →
      ∃ items, getPlaylistWithItems db u playlistId true = .ok P items ∧
        (getPlaylistWithItems db u playlistId true).status = 200) ∧
    (∀ u : String,
      db.playlists.find? (fun q => q.id == playlistId) = none →
      getPlaylistWithItems db u playlistId true
        = .notFound "Playlist not found" ∧
      (getPlaylistWithItems db u playlistId true).status = 404) := by
  refine ⟨?_, ?_, ?_, ?_⟩
  · intro P a bPrincipal hp hown hpriv hneq
    have hb : (P.owner_id != bPrincipal) = true := by
      simp [bne_iff_ne, hown]
      exact fun h => hneq h.symm
    have : getPlaylistWithItems db bPrincipal playlistId true
        = .forbidden "Permission denied" := by
      unfold getPlaylistWithItems
      simp [h5, hp, hpriv, hb]
    exact ⟨this, by rw [this]; rfl⟩
  · intro P a hp hown
    refine ⟨sortByAddedAtDesc ((db.playlistItems.filter
        (fun it => it.playlist_id == playlistId)).map
        (fun it => (it, db.tracks.find? (fun t => t.id == it.track_id)))),
      ?_, ?_⟩ <;>
    · unfold getPlaylistWithItems
      simp [h5, hp, hown, ReadOutcome.status]
  · intro P u hp hpub
    refine ⟨sortByAddedAtDesc ((db.playlistItems.filter
        (fun it => it.playlist_id == playlistId)).map
        (fun it => (it, db.tracks.find? (fun t => t.id == it.track_id)))),
      ?_, ?_⟩ <;>
    · unfold getPlaylistWithItems
      simp [h5, hp, hpub, ReadOutcome.status]
  · intro u hp
    have : getPlaylistWithItems db u playlistId true
        = .notFound "Playlist not found" := by
      unfold getPlaylistWithItems
      simp [h5, hp]
    exact ⟨this, by rw [this]; rfl⟩

/-- Witness for C5: `user-a`'s private playlist read by `user-b` (403) and
by `user-a` (200); a missing id gives 404. -/
theorem C5_playlist_read_access_witness :
    (getPlaylistWithItems dbPrivW "user-b" uuidW2 true
      = .forbidden "Permission denied" ∧
     (getPlaylistWithItems dbPrivW "user-b" uuidW2 true).status = 403) ∧
    (∃ items, getPlaylistWithItems dbPrivW "user-a" uuidW2 true
        = .ok privatePlaylistW items ∧
      (getPlaylistWithItems dbPrivW "user-a" uuidW2 true).status = 200) ∧
    (∃ items, getPlaylistWithItems dbPW "user-b" uuidW2 true
        = .ok playlistW items ∧
      (getPlaylistWithItems dbPW "user-b" uuidW2 true).status = 200) ∧
    (getPlaylistWithItems dbPrivW "user-b" uuidW3 true
      = .notFound "Playlist not found" ∧
     (getPlaylistWithItems dbPrivW "user-b" uuidW3 true).status = 404) :=
  ⟨(C5_playlist_read_access dbPrivW uuidW2 (by decide)).1 privatePlaylistW
      "user-a" "user-b" rfl rfl rfl (by decide),
   (C5_playlist_read_access dbPrivW uuidW2 (by decide)).2.1 privatePlaylistW
      "user-a" rfl rfl,
   (C5_playlist_read_access dbPW uuidW2 (by decide)).2.2.1 playlistW
      "user-b" rfl rfl,
   (C5_playlist_read_access dbPrivW uuidW3 (by decide)).2.2.2 "user-b" rfl⟩

/-! ## C6 — track-creation field allow-list -/

/-- Property access past a freshly consed unrelated key is unchanged. -/
theorem jsGet_cons_ne (k key : String) (v : JVal) (b : Body)
    (h : (key == k) = false) :
    jsGet ((k, v) :: b) key = jsGet b key := by
  simp [jsGet, List.lookup, h]

/-- C6: Both lazy track-creation call sites build their insert object from
the allow-listed columns only — the favorites object carries exactly the
six allowed fields, the playlist object a subset of them — and a body key
outside what either handler reads is silently dropped: it changes neither
the response nor the resulting state, and never causes an error. -/
theorem C6_track_field_allowlist :
    (∀ (track_id : String) (b : Body),
      (favTrackData track_id b).map Prod.fst = allowedTrackFields) ∧
    (∀ (b : Body) (k : String),
      k ∈ (plTrackData b).map Prod.fst → k ∈ allowedTrackFields) ∧
    (∀ (db : DB) (u : String) (b : Body) (k : String) (v : JVal) (hc : Bool),
      k ∉ favReadKeys →
      addFavorite db u ((k, v) :: b) hc = addFavorite db u b hc) ∧
    (∀ (db : DB) (u pid : String) (b : Body) (k : String) (v : JVal)
        (hc : Bool),
      k ∉ plReadKeys →
      addTrackToPlaylist db u pid ((k, v) :: b) hc
        = addTrackToPlaylist db u pid b hc) := by
  refine ⟨fun _ _ => rfl, ?_, ?_, ?_⟩
  · intro b k hmem
    unfold plTrackData at hmem
    cases h : truthy? (jsGet b "artist_name") <;>
      rw [h] at hmem <;>
      simp [allowedTrackFields] at hmem ⊢
    · rcases hmem with h' | h' | h' | h' <;> simp [h']
    · rcases hmem with h' | h' | h' | h' | h' <;> simp [h']
  · intro db u b k v hc hk
    simp only [favReadKeys, List.mem_cons, List.not_mem_nil, or_false,
      not_or] at hk
    obtain ⟨k1, k2, k3, k4, k5, k6, k7, k8, k9, k10⟩ := hk
    have e1 := jsGet_cons_ne k "track_id" v b
      (beq_eq_false_iff_ne.mpr (Ne.symm k1))
    have e2 := jsGet_cons_ne k "title" v b
      (beq_eq_false_iff_ne.mpr (Ne.symm k2))
    have e3 := jsGet_cons_ne k "artist" v b
      (beq_eq_false_iff_ne.mpr (Ne.symm k3))
    have e4 := jsGet_cons_ne k "artist_name" v b
      (beq_eq_false_iff_ne.mpr (Ne.symm k4))
    have e5 := jsGet_cons_ne k "duration" v b
      (beq_eq_false_iff_ne.mpr (Ne.symm k5))
    have e6 := jsGet_cons_ne k "duration_seconds" v b
      (beq_eq_false_iff_ne.mpr (Ne.symm k6))
    have e9 := jsGet_cons_ne k "audius_track_id" v b
      (beq_eq_false_iff_ne.mpr (Ne.symm k9))
    have e10 := jsGet_cons_ne k "audius_stream_url" v b
      (beq_eq_false_iff_ne.mpr (Ne.symm k10))
    simp only [addFavorite, favTrackData, e1, e2, e3, e4, e5, e6, e9, e10]
  · intro db u pid b k v hc hk
    simp only [plReadKeys, List.mem_cons, List.not_mem_nil, or_false,
      not_or] at hk
    obtain ⟨k1, k2, k3, k4, k5⟩ := hk
    have e1 := jsGet_cons_ne k "title" v b
      (beq_eq_false_iff_ne.mpr (Ne.symm k1))
    have e2 := jsGet_cons_ne k "duration_seconds" v b
      (beq_eq_false_iff_ne.mpr (Ne.symm k2))
    have e3 := jsGet_cons_ne k "audius_track_id" v b
      (beq_eq_false_iff_ne.mpr (Ne.symm k3))
    have e4 := jsGet_cons_ne k "audius_stream_url" v b
      (beq_eq_false_iff_ne.mpr (Ne.symm k4))
    have e5 := jsGet_cons_ne k "artist_name" v b
      (beq_eq_false_iff_ne.mpr (Ne.symm k5))
    simp only [addTrackToPlaylist, validTitle, validReqString,
      validOptDuration, plTrackData, e1, e2, e3, e4, e5]

/-- Witness for C6: the extraneous field `genre` is dropped by both call
sites without any effect. -/
theorem C6_track_field_allowlist_witness :
    ((favTrackData uuidW favBodyW).map Prod.fst = allowedTrackFields) ∧
    ("title" ∈ (plTrackData plBodyW).map Prod.fst →
      "title" ∈ allowedTrackFields) ∧
    (addFavorite dbW "user-a" (("genre", JVal.str "jazz") :: favBodyW) true
      = addFavorite dbW "user-a" favBodyW true) ∧
    (addTrackToPlaylist dbPW "user-a" uuidW2
        (("genre", JVal.str "jazz") :: plBodyW) true
      = addTrackToPlaylist dbPW "user-a" uuidW2 plBodyW true) :=
  ⟨C6_track_field_allowlist.1 uuidW favBodyW,
   C6_track_field_allowlist.2.1 plBodyW "title",
   C6_track_field_allowlist.2.2.1 dbW "user-a" favBodyW "genre"
     (JVal.str "jazz") true (by decide),
   C6_track_field_allowlist.2.2.2 dbPW "user-a" uuidW2 plBodyW "genre"
     (JVal.str "jazz") true (by decide)⟩

/-! ## C7 — playlist-name validation on creation -/

/-- C7 counterexample: with a provisioned schema and an existing profile,
POST /playlists with the length-1 name " " (one space) is rejected with
400 and writes nothing, refuting "a name of length 1 to 100 succeeds
(201)" — the handler also requires the trimmed name to be non-empty. -/
theorem C7_counterexample :
    (" " : String).length = 1 ∧
    (createPlaylist dbW "user-a" [("name", JVal.str " ")] true).1
      = CreateOutcome.badRequest
          "Playlist name is required and must be a non-empty string" ∧
    ((createPlaylist dbW "user-a" [("name", JVal.str " ")] true).1).status
      = 400 ∧
    (createPlaylist dbW "user-a" [("name", JVal.str " ")] true).2 = dbW := by
  refine ⟨rfl, ?_, ?_, ?_⟩ <;> decide

/-- C7 (amended): for an authenticated principal with an existing profile,
POST /playlists succeeds (201) when the name is a string whose trimmed
form is non-empty and whose length is at most 100; a name that is empty or
whitespace-only, or longer than 100 characters, fails 400 and writes no
playlist row. -/
theorem C7_createPlaylist_validation
    (db : DB) (userId : String) (b : Body) (name : String)
    (hn : jsGet b "name" = some (.str name))
    (hd : optString (jsGet b "description") = true)
    (hpb : optBool (jsGet b "is_public") = true)
    (hprof : db.profiles.contains userId = true) :
    (jsTrim name ≠ "" → name.length ≤ 100 →
      ∃ row : PlaylistRow,
        (createPlaylist db userId b true).1
          = CreateOutcome.created row "Playlist created successfully" ∧
        ((createPlaylist db userId b true).1).status = 201 ∧
        row.owner_id = userId ∧ row.name = jsTrim name ∧
        (createPlaylist db userId b true).2.playlists
          = db.playlists ++ [row]) ∧
    ((jsTrim name = "" ∨ name.length > 100) →
      ((createPlaylist db userId b true).1).status = 400 ∧
      (createPlaylist db userId b true).2 = db) := by
  constructor
  · intro ht hl
    have ht' : (jsTrim name == "") = false := beq_eq_false_iff_ne.mpr ht
    have hl' : ¬ (name.length > 100) := by omega
    unfold createPlaylist
    rw [hn]
    simp only [Bool.not_true, Bool.false_eq_true, if_false, ht', hl', hd,
      hpb, hprof, ite_false, ite_true]
    exact ⟨_, rfl, rfl, rfl, rfl, rfl⟩
  · intro hfail
    by_cases ht : jsTrim name = ""
    · have ht' : (jsTrim name == "") = true := beq_iff_eq.mpr ht
      have e : createPlaylist db userId b true
          = (CreateOutcome.badRequest
              "Playlist name is required and must be a non-empty string", db) := by
        unfold createPlaylist
        rw [hn]
        simp [ht']
      exact ⟨by rw [e]; rfl, by rw [e]⟩
    · have hlen : name.length > 100 := by
        rcases hfail with h | h
        · exact absurd h ht
        · exact h
      have ht' : (jsTrim name == "") = false := beq_eq_false_iff_ne.mpr ht
      have e : createPlaylist db userId b true
          = (CreateOutcome.badRequest
              "Playlist name must be 100 characters or less", db) := by
        unfold createPlaylist
        rw [hn]
        simp [ht', hlen]
      exact ⟨by rw [e]; rfl, by rw [e]⟩

/-- Witness for C7 (amended): "Road Trip" succeeds, a 101-character name
fails 400. -/
theorem C7_createPlaylist_validation_witness :
    (∃ row : PlaylistRow,
      (createPlaylist dbW "user-a" [("name", JVal.str "Road Trip")] true).1
        = CreateOutcome.created row "Playlist created successfully" ∧
      ((createPlaylist dbW "user-a" [("name", JVal.str "Road Trip")]
          true).1).status = 201 ∧
      row.owner_id = "user-a" ∧ row.name = jsTrim "Road Trip" ∧
      (createPlaylist dbW "user-a" [("name", JVal.str "Road Trip")]
          true).2.playlists
        = dbW.playlists ++ [row]) ∧
    (((createPlaylist dbW "user-a"
        [("name", JVal.str (String.mk (List.replicate 101 'x')))]
        true).1).status = 400 ∧
     (createPlaylist dbW "user-a"
        [("name", JVal.str (String.mk (List.replicate 101 'x')))]
        true).2 = dbW) :=
  ⟨(C7_createPlaylist_validation dbW "user-a"
      [("name", JVal.str "Road Trip")] "Road Trip" rfl rfl rfl rfl).1
      (by decide) (by decide),
   (C7_createPlaylist_validation dbW "user-a"
      [("name", JVal.str (String.mk (List.replicate 101 'x')))]
      (String.mk (List.replicate 101 'x')) rfl rfl rfl rfl).2
      (Or.inr (by decide))⟩

/-! ## C8 — playlist update has partial-update semantics -/

/-- Field-by-field behaviour of one playlist UPDATE: supplied fields take
the new value, `updated_at` is refreshed by the trigger, everything else
is untouched. -/
theorem applyPatch_frame (d u : Option JVal) (n : Nat) (p : PlaylistRow) :
    (applyPatch d u n p).id = p.id ∧
    (applyPatch d u n p).owner_id = p.owner_id ∧
    (applyPatch d u n p).name = p.name ∧
    (applyPatch d u n p).created_at = p.created_at ∧
    (applyPatch d u n p).updated_at = n ∧
    (d = none → (applyPatch d u n p).description = p.description) ∧
    (u = none → (applyPatch d u n p).is_public = p.is_public) ∧
    (∀ s, d = some (.str s) → (applyPatch d u n p).description = s) ∧
    (∀ v, u = some (.bool v) → (applyPatch d u n p).is_public = v) := by
  unfold applyPatch
  rcases d with - | dv
  · rcases u with - | uv
    · simp
    · cases uv <;> simp
  · rcases u with - | uv
    · cases dv <;> simp
    · cases dv <;> cases uv <;> simp

/-- C8 counterexample: PATCHing only `description` of a playlist stored
with `updated_at = 0` while the database clock is at 5 yields a row whose
unsupplied `updated_at` field changed to 5 (the repository schema's
`set_updated_at` trigger fires on every playlists UPDATE), refuting
"every unsupplied field of the playlist is left untouched". -/
theorem C8_counterexample :
    (updatePlaylist dbPrivW "user-a" uuidW2 [("description", JVal.str "x")]
        true).1
      = UpdateOutcome.ok
          { privatePlaylistW with description := "x", updated_at := 5 }
          "Playlist updated successfully" ∧
    privatePlaylistW.updated_at ≠ 5 := by
  refine ⟨?_, ?_⟩ <;> decide

/-- C8 (amended): PATCH /playlists/:id by the owner requires at least one
of description/is_public with the correct type, failing 400 with no write
otherwise; on success only the supplied fields — plus the
database-trigger-maintained `updated_at` timestamp — change: id, owner_id,
name, created_at and any omitted field keep their values, and only the
targeted playlist row is rewritten. -/
theorem C8_updatePlaylist_partial_update
    (db : DB) (userId playlistId : String) (b : Body) (p : PlaylistRow)
    (h5 : isUuid playlistId = true)
    (hp : db.playlists.find? (fun q => q.id == playlistId) = some p)
    (ho : p.owner_id = userId) :
    (jsGet b "description" = none → jsGet b "is_public" = none →
      updatePlaylist db userId playlistId b true
        = (.badRequest
            "At least one field (description or is_public) must be provided",
           db)) ∧
    (optString (jsGet b "description") = false →
      updatePlaylist db userId playlistId b true
        = (.badRequest "Description must be a string", db)) ∧
    (((jsGet b "description").isNone && (jsGet b "is_public").isNone)
        = false →
      optString (jsGet b "description") = true →
      optBool (jsGet b "is_public") = false →
      updatePlaylist db userId playlistId b true
        = (.badRequest "is_public must be a boolean", db)) ∧
    (((jsGet b "description").isNone && (jsGet b "is_public").isNone)
        = false →
      optString (jsGet b "description") = true →
      optBool (jsGet b "is_public") = true →
      (updatePlaylist db userId playlistId b true).1
        = .ok (applyPatch (jsGet b "description") (jsGet b "is_public")
            db.now p) "Playlist updated successfully" ∧
      ((updatePlaylist db userId playlistId b true).1).status = 200 ∧
      (updatePlaylist db userId playlistId b true).2
        = { db with playlists := (db.playlists.map (fun q =>
            if q.id == playlistId then
              applyPatch (jsGet b "description") (jsGet b "is_public")
                db.now q
            else q)) } ∧
      (applyPatch (jsGet b "description") (jsGet b "is_public") db.now
        p).name = p.name ∧
      (jsGet b "description" = none →
        (applyPatch (jsGet b "description") (jsGet b "is_public") db.now
          p).description = p.description) ∧
      (jsGet b "is_public" = none →
        (applyPatch (jsGet b "description") (jsGet b "is_public") db.now
          p).is_public = p.is_public)) := by
  refine ⟨?_, ?_, ?_, ?_⟩
  · intro hdn hpn
    unfold updatePlaylist
    simp [h5, hdn, hpn]
  · intro hdbad
    have hdn : ¬((jsGet b "description").isNone
        && (jsGet b "is_public").isNone) = true := by
      intro hconj
      rw [Bool.and_eq_true] at hconj
      rcases hconj with ⟨h1, h2⟩
      rw [Option.isNone_iff_eq_none] at h1
      rw [h1] at hdbad
      simp [optString] at hdbad
    unfold updatePlaylist
    simp [h5, hdn, hdbad]
  · intro hone hdok hpbad
    unfold updatePlaylist
    simp [h5, hone, hdok, hpbad]
  · intro hone hdok hpok
    have e : updatePlaylist db userId playlistId b true
        = (.ok (applyPatch (jsGet b "description") (jsGet b "is_public")
              db.now p) "Playlist updated successfully",
           { db with playlists := (db.playlists.map (fun q =>
              if q.id == playlistId then
                applyPatch (jsGet b "description") (jsGet b "is_public")
                  db.now q
              else q)) }) := by
      unfold updatePlaylist
      simp [h5, hone, hdok, hpok, hp, ho]
    have hf := applyPatch_frame (jsGet b "description") (jsGet b "is_public")
      db.now p
    exact ⟨by rw [e], by rw [e]; rfl, by rw [e], hf.2.2.1,
      fun h => (hf.2.2.2.2.2.1) h, fun h => (hf.2.2.2.2.2.2.1) h⟩

/-- Witness for C8 (amended): empty patch 400, ill-typed patches 400, a
description-only patch succeeds and leaves the name untouched. -/
theorem C8_updatePlaylist_partial_update_witness :
    (updatePlaylist dbPrivW "user-a" uuidW2 ([] : Body) true
      = (.badRequest
          "At least one field (description or is_public) must be provided",
         dbPrivW)) ∧
    (updatePlaylist dbPrivW "user-a" uuidW2 [("description", JVal.num 3)]
        true
      = (.badRequest "Description must be a string", dbPrivW)) ∧
    (updatePlaylist dbPrivW "user-a" uuidW2 [("is_public", JVal.num 3)] true
      = (.badRequest "is_public must be a boolean", dbPrivW)) ∧
    ((updatePlaylist dbPrivW "user-a" uuidW2 [("description", JVal.str "x")]
        true).1
      = .ok (applyPatch (jsGet [("description", JVal.str "x")] "description")
          (jsGet [("description", JVal.str "x")] "is_public") dbPrivW.now
          privatePlaylistW) "Playlist updated successfully") ∧
    ((applyPatch (jsGet [("description", JVal.str "x")] "description")
        (jsGet [("description", JVal.str "x")] "is_public") dbPrivW.now
        privatePlaylistW).name = privatePlaylistW.name) :=
  ⟨(C8_updatePlaylist_partial_update dbPrivW "user-a" uuidW2 ([] : Body)
      privatePlaylistW (by decide) rfl rfl).1 rfl rfl,
   (C8_updatePlaylist_partial_update dbPrivW "user-a" uuidW2
      [("description", JVal.num 3)] privatePlaylistW (by decide) rfl
      rfl).2.1 rfl,
   (C8_updatePlaylist_partial_update dbPrivW "user-a" uuidW2
      [("is_public", JVal.num 3)] privatePlaylistW (by decide) rfl
      rfl).2.2.1 rfl rfl rfl,
   ((C8_updatePlaylist_partial_update dbPrivW "user-a" uuidW2
      [("description", JVal.str "x")] privatePlaylistW (by decide) rfl
      rfl).2.2.2 rfl rfl rfl).1,
   ((C8_updatePlaylist_partial_update dbPrivW "user-a" uuidW2
      [("description", JVal.str "x")] privatePlaylistW (by decide) rfl
      rfl).2.2.2 rfl rfl rfl).2.2.2.1⟩

/-! ## C9 — the schema guard -/

/-- A failed schema check always carries the remediation hint. -/
theorem ensureTablesExist_error_of_failure (s : Schema)
    (h : (ensureTablesExist s).success = false) :
    (ensureTablesExist s).error = some schemaInitErrorMsg := by
  rcases s with ⟨t, i, f, a⟩
  cases t <;> cases i <;> cases f <;> cases a <;> first | rfl | exact absurd h (by decide)

/-- C9: `ensureTablesExist` probes each of the three tables the system
depends on (`tracks`, `playlist_items`, `favorites`); a missing table
yields the typed failure with a remediation hint, which `addFavorite`
converts into a 500 carrying that hint without writing anything; a missing
optional `artist_name` column only produces a warning, the check succeeds,
and the operation proceeds exactly as it would with the column present. -/
theorem C9_schema_guard
    (s : Schema) (db : DB) (userId track_id : String) (b : Body) :
    (s.tracksTable = false →
      ensureTablesExist s
        = ⟨false, some schemaInitErrorMsg, [missingTableWarning "tracks"]⟩) ∧
    (s.tracksTable = true → s.playlistItemsTable = false →
      ensureTablesExist s
        = ⟨false, some schemaInitErrorMsg,
           [missingTableWarning "playlist_items"]⟩) ∧
    (s.tracksTable = true → s.playlistItemsTable = true →
      s.favoritesTable = false →
      ensureTablesExist s
        = ⟨false, some schemaInitErrorMsg,
           [missingTableWarning "favorites"]⟩) ∧
    (s.tracksTable = true → s.playlistItemsTable = true →
      s.favoritesTable = true → s.artistNameColumn = false →
      ensureTablesExist s = ⟨true, none, [artistColumnWarning]⟩) ∧
    ((ensureTablesExist db.schema).success = false →
      jsGet b "track_id" = some (.str track_id) → isUuid track_id = true →
      addFavorite db userId b true
        = (.serverError "Database schema error" schemaInitErrorMsg, db)) ∧
    (db.schema.tracksTable = true → db.schema.playlistItemsTable = true →
      db.schema.favoritesTable = true →
      (addFavorite db userId b true).1
        = (addFavorite
            { db with schema := { db.schema with artistNameColumn := true } }
            userId b true).1 ∧
      (addFavorite db userId b true).2.tracks
        = (addFavorite
            { db with schema := { db.schema with artistNameColumn := true } }
            userId b true).2.tracks ∧
      (addFavorite db userId b true).2.favorites
        = (addFavorite
            { db with schema := { db.schema with artistNameColumn := true } }
            userId b true).2.favorites) := by
  refine ⟨?_, ?_, ?_, ?_, ?_, ?_⟩
  · intro h1
    unfold ensureTablesExist
    simp [h1]
  · intro h1 h2
    unfold ensureTablesExist
    simp [h1, h2]
  · intro h1 h2 h3
    unfold ensureTablesExist
    simp [h1, h2, h3]
  · intro h1 h2 h3 h4
    unfold ensureTablesExist
    simp [h1, h2, h3, h4]
  · intro hfail hb hu
    have herr := ensureTablesExist_error_of_failure db.schema hfail
    unfold addFavorite
    rw [hb]
    simp [hu, hfail, herr]
  · intro h1 h2 h3
    have hs1 : (ensureTablesExist db.schema).success = true := by
      rw [ensureTablesExist_success, h1, h2, h3]
      rfl
    have hs2 : (ensureTablesExist
        { db.schema with artistNameColumn := true }).success = true := by
      rw [ensureTablesExist_success]
      simp [h1, h2, h3]
    unfold addFavorite
    cases hm : jsGet b "track_id" with
    | none => simp
    | some v =>
      cases v with
      | null => simp
      | bool bb => simp
      | num nn => simp
      | str tid =>
        by_cases hu : isUuid tid
        · simp only [hu, hs1, hs2, Bool.not_true, Bool.false_eq_true,
            if_false, ite_false, Bool.not_false, ite_true]
          cases htr : db.tracks.find? (fun t => t.id == tid) <;>
            cases hf : db.favorites.find? (favMatches userId tid) <;>
              simp [htr, hf, favInsertStep]
        · simp [hu]

/-- Witness for C9: each degraded schema at a concrete database. -/
theorem C9_schema_guard_witness :
    (ensureTablesExist ⟨false, true, true, true⟩
      = ⟨false, some schemaInitErrorMsg, [missingTableWarning "tracks"]⟩) ∧
    (ensureTablesExist ⟨true, false, true, true⟩
      = ⟨false, some schemaInitErrorMsg,
         [missingTableWarning "playlist_items"]⟩) ∧
    (ensureTablesExist ⟨true, true, false, true⟩
      = ⟨false, some schemaInitErrorMsg, [missingTableWarning "favorites"]⟩) ∧
    (ensureTablesExist ⟨true, true, true, false⟩
      = ⟨true, none, [artistColumnWarning]⟩) ∧
    (addFavorite { dbW with schema := ⟨false, true, true, true⟩ } "user-a"
        favBodyW true
      = (.serverError "Database schema error" schemaInitErrorMsg,
         { dbW with schema := ⟨false, true, true, true⟩ })) ∧
    ((addFavorite { dbW with schema := ⟨true, true, true, false⟩ } "user-a"
        favBodyW true).1
      = (addFavorite { dbW with schema := ⟨true, true, true, true⟩ }
          "user-a" favBodyW true).1) :=
  ⟨(C9_schema_guard ⟨false, true, true, true⟩ dbW "user-a" uuidW
      favBodyW).1 rfl,
   (C9_schema_guard ⟨true, false, true, true⟩ dbW "user-a" uuidW
      favBodyW).2.1 rfl rfl,
   (C9_schema_guard ⟨true, true, false, true⟩ dbW "user-a" uuidW
      favBodyW).2.2.1 rfl rfl rfl,
   (C9_schema_guard ⟨true, true, true, false⟩ dbW "user-a" uuidW
      favBodyW).2.2.2.1 rfl rfl rfl rfl,
   (C9_schema_guard schemaW { dbW with schema := ⟨false, true, true, true⟩ }
      "user-a" uuidW favBodyW).2.2.2.2.1 rfl rfl (by decide),
   ((C9_schema_guard schemaW { dbW with schema := ⟨true, true, true, false⟩ }
      "user-a" uuidW favBodyW).2.2.2.2.2 rfl rfl rfl).1⟩

/-! ## C10 — lazy track creation defaults and aliases -/

/-- `x || y` when the left operand is absent. -/
theorem jsOr_none (y : JVal) : jsOr none y = y := rfl

/-- `x || y` when the left operand is falsy. -/
theorem jsOr_falsy (x : Option JVal) (y : JVal) (h : truthy? x = false) :
    jsOr x y = y := by
  cases x with
  | none => rfl
  | some v =>
    simp [truthy?] at h
    simp [jsOr, h]

/-- `x || y` when the left operand is truthy. -/
theorem jsOr_truthy (x : Option JVal) (v y : JVal) (hx : x = some v)
    (hv : v.truthy = true) : jsOr x y = v := by
  rw [hx]
  simp [jsOr, hv]

/-- The columns of the track row lazily created by the favorites path,
expressed through the source's `||`-fallback chains. -/
theorem favTrackRow_fields (track_id : String) (b : Body) :
    (rowOfData track_id (favTrackData track_id b)).title
      = jsOr (jsGet b "title") (.str "Untitled Track") ∧
    (rowOfData track_id (favTrackData track_id b)).artist_name
      = jsOr (jsGet b "artist_name") (jsOr (jsGet b "artist") .null) ∧
    (rowOfData track_id (favTrackData track_id b)).duration_seconds
      = jsOr (jsGet b "duration_seconds") (jsOr (jsGet b "duration") .null) ∧
    (rowOfData track_id (favTrackData track_id b)).audius_track_id
      = jsOr (jsGet b "audius_track_id") .null ∧
    (rowOfData track_id (favTrackData track_id b)).audius_stream_url
      = jsOr (jsGet b "audius_stream_url") .null := by
  refine ⟨?_, ?_, ?_, ?_, ?_⟩ <;> simp [rowOfData, favTrackData, List.lookup]

/-- C10: When POST /favorites references an unknown track_id, the lazily
created row keeps the caller's id; an omitted title defaults to
"Untitled Track"; each omitted optional column is stored as NULL; and the
alias body fields `artist` and `duration` are accepted as fallbacks for
`artist_name` and `duration_seconds`. -/
theorem C10_lazy_track_defaults
    (db : DB) (userId track_id : String) (b : Body)
    (hb : jsGet b "track_id" = some (.str track_id))
    (hu : isUuid track_id = true)
    (hs : (ensureTablesExist db.schema).success = true)
    (htr : db.tracks.find? (fun t => t.id == track_id) = none)
    (h0 : db.favorites.find? (favMatches userId track_id) = none) :
    (addFavorite db userId b true).2.tracks
      = db.tracks ++ [rowOfData track_id (favTrackData track_id b)] ∧
    (rowOfData track_id (favTrackData track_id b)).id = track_id ∧
    (jsGet b "title" = none →
      (rowOfData track_id (favTrackData track_id b)).title
        = .str "Untitled Track") ∧
    (truthy? (jsGet b "artist_name") = false →
      truthy? (jsGet b "artist") = false →
      (rowOfData track_id (favTrackData track_id b)).artist_name = .null) ∧
    (truthy? (jsGet b "duration_seconds") = false →
      truthy? (jsGet b "duration") = false →
      (rowOfData track_id (favTrackData track_id b)).duration_seconds
        = .null) ∧
    (jsGet b "audius_track_id" = none →
      (rowOfData track_id (favTrackData track_id b)).audius_track_id
        = .null) ∧
    (jsGet b "audius_stream_url" = none →
      (rowOfData track_id (favTrackData track_id b)).audius_stream_url
        = .null) ∧
    (∀ v : JVal, truthy? (jsGet b "artist_name") = false →
      jsGet b "artist" = some v → v.truthy = true →
      (rowOfData track_id (favTrackData track_id b)).artist_name = v) ∧
    (∀ v : JVal, truthy? (jsGet b "duration_seconds") = false →
      jsGet b "duration" = some v → v.truthy = true →
      (rowOfData track_id (favTrackData track_id b)).duration_seconds
        = v) := by
  have hf := favTrackRow_fields track_id b
  refine ⟨?_, rowOfData_fav_id track_id b, ?_, ?_, ?_, ?_, ?_, ?_, ?_⟩
  · have e := addFavorite_fresh db userId track_id b hb hu hs h0
    rw [e]
    simp [htr]
  · intro h
    rw [hf.1, h, jsOr_none]
  · intro h1 h2
    rw [hf.2.1, jsOr_falsy _ _ h1, jsOr_falsy _ _ h2]
  · intro h1 h2
    rw [hf.2.2.1, jsOr_falsy _ _ h1, jsOr_falsy _ _ h2]
  · intro h
    rw [hf.2.2.2.1, h, jsOr_none]
  · intro h
    rw [hf.2.2.2.2, h, jsOr_none]
  · intro v h1 h2 h3
    rw [hf.2.1, jsOr_falsy _ _ h1, jsOr_truthy _ v _ h2 h3]
  · intro v h1 h2 h3
    rw [hf.2.2.1, jsOr_falsy _ _ h1, jsOr_truthy _ v _ h2 h3]

/-- Witness for C10: a favorites body with no title, the `artist` alias
and the `duration` alias. -/
theorem C10_lazy_track_defaults_witness :
    (addFavorite dbW "user-a"
        [("track_id", JVal.str uuidW), ("artist", JVal.str "Miles"),
         ("duration", JVal.num 300)] true).2.tracks
      = dbW.tracks ++ [rowOfData uuidW (favTrackData uuidW
          [("track_id", JVal.str uuidW), ("artist", JVal.str "Miles"),
           ("duration", JVal.num 300)])] ∧
    (rowOfData uuidW (favTrackData uuidW
        [("track_id", JVal.str uuidW), ("artist", JVal.str "Miles"),
         ("duration", JVal.num 300)])).id = uuidW ∧
    (rowOfData uuidW (favTrackData uuidW
        [("track_id", JVal.str uuidW), ("artist", JVal.str "Miles"),
         ("duration", JVal.num 300)])).title = .str "Untitled Track" ∧
    (rowOfData uuidW (favTrackData uuidW
        [("track_id", JVal.str uuidW), ("artist", JVal.str "Miles"),
         ("duration", JVal.num 300)])).audius_track_id = .null ∧
    (rowOfData uuidW (favTrackData uuidW
        [("track_id", JVal.str uuidW), ("artist", JVal.str "Miles"),
         ("duration", JVal.num 300)])).audius_stream_url = .null ∧
    (rowOfData uuidW (favTrackData uuidW
        [("track_id", JVal.str uuidW), ("artist", JVal.str "Miles"),
         ("duration", JVal.num 300)])).artist_name = JVal.str "Miles" ∧
    (rowOfData uuidW (favTrackData uuidW
        [("track_id", JVal.str uuidW), ("artist", JVal.str "Miles"),
         ("duration", JVal.num 300)])).duration_seconds = JVal.num 300 :=
  ⟨(C10_lazy_track_defaults dbW "user-a" uuidW
      [("track_id", JVal.str uuidW), ("artist", JVal.str "Miles"),
       ("duration", JVal.num 300)] rfl (by decide) rfl rfl rfl).1,
   (C10_lazy_track_defaults dbW "user-a" uuidW
      [("track_id", JVal.str uuidW), ("artist", JVal.str "Miles"),
       ("duration", JVal.num 300)] rfl (by decide) rfl rfl rfl).2.1,
   (C10_lazy_track_defaults dbW "user-a" uuidW
      [("track_id", JVal.str uuidW), ("artist", JVal.str "Miles"),
       ("duration", JVal.num 300)] rfl (by decide) rfl rfl rfl).2.2.1 rfl,
   (C10_lazy_track_defaults dbW "user-a" uuidW
      [("track_id", JVal.str uuidW), ("artist", JVal.str "Miles"),
       ("duration", JVal.num 300)] rfl (by decide) rfl rfl rfl).2.2.2.2.2.1
      rfl,
   (C10_lazy_track_defaults dbW "user-a" uuidW
      [("track_id", JVal.str uuidW), ("artist", JVal.str "Miles"),
       ("duration", JVal.num 300)] rfl (by decide) rfl rfl rfl).2.2.2.2.2.2.1
      rfl,
   (C10_lazy_track_defaults dbW "user-a" uuidW
      [("track_id", JVal.str uuidW), ("artist", JVal.str "Miles"),
       ("duration", JVal.num 300)] rfl (by decide) rfl rfl
      rfl).2.2.2.2.2.2.2.1 (JVal.str "Miles") rfl rfl rfl,
   (C10_lazy_track_defaults dbW "user-a" uuidW
      [("track_id", JVal.str uuidW), ("artist", JVal.str "Miles"),
       ("duration", JVal.num 300)] rfl (by decide) rfl rfl
      rfl).2.2.2.2.2.2.2.2 (JVal.num 300) rfl rfl rfl⟩
